import Mathlib

/-!
Verification development for the Beacon House admissions lead-capture form
(simplified 2-page flow v8.0 and the earlier 3-step flow).

The embedding models, from the TypeScript sources:
  - the lead-category constants and sanitization (`src/types/form.ts`,
    `src/lib/dataValidation.ts`),
  - the spam predicate and qualification helpers (`src/lib/pixel.ts`,
    `src/lib/form.ts`),
  - the page-1 submission handler of the v8.0 flow (`FormContainer` v8.0),
  - the step-2 routing and extended-nurture handler of the 3-step flow
    (`src/components/forms/FormContainer.tsx`),
  - the Zustand form store and the top-level render guard,
  - the webhook payload assembly inside `submitFormData` (`src/lib/form.ts`).

The rule evaluator `determineLeadCategory` lives in
`src/lib/leadCategorization.ts`, which is not part of the provided sources;
it is modelled from the specification where noted.
-/

namespace AdmissionsBch

/-- A fragment of JavaScript runtime values, enough to model the dynamically
typed inputs that reach `sanitizeLeadCategory` (which is declared to take
`any`). -/
inductive JSValue where
  | vNull
  | vUndefined
  | vBool (b : Bool)
  | vNum (n : Int)
  | vStr (s : String)
  deriving DecidableEq, Repr

/-- JavaScript `String(v)` coercion on the modelled value fragment. -/
def jsToString : JSValue → String
  | .vNull => "null"
  | .vUndefined => "undefined"
  | .vBool true => "true"
  | .vBool false => "false"
  | .vNum n => toString n
  | .vStr s => s

/-- JavaScript falsiness (`!v`) on the modelled value fragment. -/
def jsFalsy : JSValue → Bool
  | .vNull => true
  | .vUndefined => true
  | .vBool b => !b
  | .vNum n => n == 0
  | .vStr s => s == ""

/-- ASCII lower-casing of one character, the fragment of JavaScript
`toLowerCase` relevant to the category strings. -/
def asciiToLower (c : Char) : Char :=
  if 'A' ≤ c && c ≤ 'Z' then Char.ofNat (c.toNat + 32) else c

/-- JavaScript `s.toLowerCase()` on the modelled character range. -/
def jsToLower (s : String) : String := String.mk (s.data.map asciiToLower)

/-- The whitespace characters stripped by JavaScript `trim` that can occur in
the modelled inputs. -/
def jsWhitespace (c : Char) : Bool :=
  c == ' ' || c == '\t' || c == '\n' || c == '\r'

/-- JavaScript `s.trim()`. -/
def jsTrim (s : String) : String :=
  String.mk (((s.data.dropWhile jsWhitespace).reverse.dropWhile jsWhitespace).reverse)

/-- Truthiness of an optional string, as used by the source in expressions
such as `data.sessionId || crypto.randomUUID()` (absent and empty strings are
falsy). -/
def strTruthy : Option String → Bool
  | none => false
  | some s => s != ""

/-- `x || null` on an optional string: an absent or empty string becomes
`null` (here `none`). -/
def orNull (o : Option String) : Option String :=
  if strTruthy o then o else none

/-- `LEAD_CATEGORIES` exactly as declared in `src/types/form.ts`:
`['BCH', 'lum-l1', 'lum-l2', 'NURTURE', 'masters-l1', 'masters-l2', 'DROP']`.
Note the mixed casing of the first, fourth and last members. -/
def LEAD_CATEGORIES : List String :=
  ["BCH", "lum-l1", "lum-l2", "NURTURE", "masters-l1", "masters-l2", "DROP"]

/-- The values admitted by the database migration check constraint
`chk_lead_category` on `form_sessions.lead_category`. -/
def dbAllowedLeadCategories : List String :=
  ["bch", "lum-l1", "lum-l2", "nurture", "masters", "drop"]

/-- `sanitizeLeadCategory` from `src/lib/dataValidation.ts`: falsy input gives
`null`; otherwise the input is coerced to a string, trimmed, lower-cased and
matched case-insensitively against `LEAD_CATEGORIES`; the first matching
canonical member is returned, `null` if none matches. -/
def sanitizeLeadCategory (category : JSValue) : Option String :=
  if jsFalsy category then none
  else LEAD_CATEGORIES.find? (fun cat =>
    jsToLower cat == jsToLower (jsTrim (jsToString category)))

/-- `getCounselorAssignment` from `src/lib/form.ts`. -/
def getCounselorAssignment (leadCategory : String) : Option String :=
  if leadCategory == "bch" then some "Viswanathan"
  else if leadCategory == "lum-l1" || leadCategory == "lum-l2" then
    some "Karthik Lakshman"
  else none

/-- The qualification check `['bch', 'lum-l1', 'lum-l2'].includes(c)` used by
`src/lib/form.ts` and `src/lib/pixel.ts`. -/
def isQualifiedCategory (leadCategory : String) : Bool :=
  leadCategory ∈ ["bch", "lum-l1", "lum-l2"]

/-! ## Lead profile data model (Page 1 of the v8.0 flow) -/

/-- `currentGrade` wire values: `7_below, 8, 9, 10, 11, 12, masters`. -/
inductive Grade where
  | g7below | g8 | g9 | g10 | g11 | g12 | masters
  deriving DecidableEq, Repr

/-- `formFillerType` wire values: `parent, student`. -/
inductive FormFillerType where
  | parent | student
  deriving DecidableEq, Repr

/-- `scholarshipRequirement` wire values: `scholarship_optional,
partial_scholarship, full_scholarship`. -/
inductive ScholarshipRequirement where
  | scholarshipOptional | partialScholarship | fullScholarship
  deriving DecidableEq, Repr

/-- The answers collected on Page 1 of the v8.0 flow
(`InitialLeadCaptureData`), restricted to the fields the categorization and
routing logic reads.  Grade values are strings in the source; `gpaValue` and
`percentageValue` stay strings because the code compares them as strings. -/
structure InitialLeadData where
  formFillerType : FormFillerType
  currentGrade : Grade
  scholarshipRequirement : ScholarshipRequirement
  curriculumType : String
  gpaValue : Option String
  percentageValue : Option String
  targetGeographies : List String
  deriving DecidableEq, Repr

/-- `isSpamLead` from `src/lib/pixel.ts`:
`formData.gpaValue === "10" || formData.percentageValue === "100"` — a strict
string comparison against exactly `"10"` and `"100"`. -/
def isSpamLead (d : InitialLeadData) : Bool :=
  d.gpaValue == some "10" || d.percentageValue == some "100"

/-- BCH qualification: grades 8-10 with optional or partial scholarship, or
grade 11 with optional or partial scholarship targeting the US. -/
def bchQualifies (d : InitialLeadData) : Bool :=
  (d.currentGrade ∈ [Grade.g8, Grade.g9, Grade.g10]
      && d.scholarshipRequirement ∈ [ScholarshipRequirement.scholarshipOptional,
            ScholarshipRequirement.partialScholarship])
  || (d.currentGrade == Grade.g11
      && d.scholarshipRequirement ∈ [ScholarshipRequirement.scholarshipOptional,
            ScholarshipRequirement.partialScholarship]
      && "US" ∈ d.targetGeographies)

/-- Whether any of the non-US geographies (`UK`, `Rest of World`,
`Need Guidance`) was selected. -/
def nonUsGeography (d : InitialLeadData) : Bool :=
  d.targetGeographies.any (fun geo => geo ∈ ["UK", "Rest of World", "Need Guidance"])

/-- Luminaire L1 qualification: grade 11, optional scholarship, non-US
geography; or grade 12 with optional scholarship. -/
def lumL1Qualifies (d : InitialLeadData) : Bool :=
  (d.currentGrade == Grade.g11
      && d.scholarshipRequirement == ScholarshipRequirement.scholarshipOptional
      && nonUsGeography d)
  || (d.currentGrade == Grade.g12
      && d.scholarshipRequirement == ScholarshipRequirement.scholarshipOptional)

/-- Luminaire L2 qualification: grade 11, partial scholarship, non-US
geography; or grade 12 with partial scholarship. -/
def lumL2Qualifies (d : InitialLeadData) : Bool :=
  (d.currentGrade == Grade.g11
      && d.scholarshipRequirement == ScholarshipRequirement.partialScholarship
      && nonUsGeography d)
  || (d.currentGrade == Grade.g12
      && d.scholarshipRequirement == ScholarshipRequirement.partialScholarship)

/-- Modelled from the spec: `determineLeadCategory` of
`src/lib/leadCategorization.ts` is not among the provided sources; this
definition follows the evaluation order of spec section 4.1 (student
override, spam detection, full scholarship for non-Masters, grade 7 or
below, Masters sub-rules, then BCH / Luminaire L1 / Luminaire L2, with
`nurture` as the default).  The spam test is the string comparison the
repository itself ships in `src/lib/pixel.ts` (`isSpamLead`).  In the v8.0
flow the Masters-only inputs (`applicationPreparation`,
`targetUniversities`) are passed as `undefined`, so none of the Masters
sub-rules matches and the Masters branch yields `nurture`. -/
def determineLeadCategory (d : InitialLeadData) : String :=
  if d.formFillerType == FormFillerType.student then "nurture"
  else if isSpamLead d then "nurture"
  else if d.currentGrade != Grade.masters
      && d.scholarshipRequirement == ScholarshipRequirement.fullScholarship then
    "nurture"
  else if d.currentGrade == Grade.g7below then "drop"
  else if d.currentGrade == Grade.masters then "nurture"
  else if bchQualifies d then "bch"
  else if lumL1Qualifies d then "lum-l1"
  else if lumL2Qualifies d then "lum-l2"
  else "nurture"

/-! ## Page-1 routing of the v8.0 flow (`onSubmitPage1`) -/

/-- The observable outcome of the Page-1 handler: either the form is
submitted immediately (with the assigned category), or the flow proceeds to
page 2 carrying the category and the qualification flag, which selects
between the counselling page 2A and the contact-only page 2B. -/
inductive Page1Outcome where
  | submittedAtStep1 (category : String)
  | proceedToPage2 (category : String) (qualified : Bool)
  deriving DecidableEq, Repr

/-- `onSubmitPage1` of the v8.0 `FormContainer`: grade `7_below` submits
immediately with category `drop` before any other rule runs; otherwise the
categorizer is consulted, student-filled forms submit immediately, and
everyone else proceeds to page 2A (qualified) or 2B (disqualified). -/
def onSubmitPage1 (d : InitialLeadData) : Page1Outcome :=
  if d.currentGrade == Grade.g7below then
    .submittedAtStep1 "drop"
  else
    let leadCategory := determineLeadCategory d
    if d.formFillerType == FormFillerType.student then
      .submittedAtStep1 leadCategory
    else
      .proceedToPage2 leadCategory (isQualifiedCategory leadCategory)

/-- The lead category the v8.0 flow assigns at page 1. -/
def assignedCategoryV8 (d : InitialLeadData) : String :=
  match onSubmitPage1 d with
  | .submittedAtStep1 c => c
  | .proceedToPage2 c _ => c

/-! ## Step-2 routing and extended nurture of the 3-step flow
(`src/components/forms/FormContainer.tsx`) -/

/-- Steps of the 3-step flow. -/
inductive FlowStep where
  | step1 | step2 | step2_5 | step3 | submitted
  deriving DecidableEq, Repr

/-- The routing at the end of `onSubmitStep2` in the 3-step
`FormContainer.tsx`: category `NURTURE` goes to the extended-nurture step
2.5, every other category goes to the counselling step 3.  There is no
student bypass and no immediate submission at this point. -/
def threeStepStep2Next (leadCategory : String) : FlowStep :=
  if leadCategory == "NURTURE" then FlowStep.step2_5 else FlowStep.step3

/-- The answers of the extended nurture form read by
`onSubmitExtendedNurture` (string wire values as they appear in
`FormContainer.tsx`). -/
structure ExtendedNurtureData where
  parentalSupport : String
  partialFundingApproach : String
  financialPlanning : String
  gradeSpecificQuestion : String
  deriving DecidableEq, Repr

/-- `qualifiesForBooking` as computed by `onSubmitExtendedNurture`: parents
qualify when `financialPlanning` is not `no_specific_plans` and
`gradeSpecificQuestion` is not `academics_focus`; students additionally need
`parentalSupport == would_join` and `partialFundingApproach` other than
`only_full_funding`.  For parents, `partialFundingApproach` is not read at
all. -/
def qualifiesForBooking (filler : FormFillerType) (d : ExtendedNurtureData) : Bool :=
  match filler with
  | .parent =>
      d.financialPlanning != "no_specific_plans"
        && d.gradeSpecificQuestion != "academics_focus"
  | .student =>
      d.parentalSupport == "would_join"
        && d.partialFundingApproach != "only_full_funding"
        && d.gradeSpecificQuestion != "academics_focus"

/-- Result of the extended-nurture handler: the (unchanged) lead category,
the nurture subcategory it records, and where the flow goes next. -/
structure ExtendedNurtureResult where
  category : String
  subcategory : String
  next : FlowStep
  deriving DecidableEq, Repr

/-- `onSubmitExtendedNurture` from `FormContainer.tsx`: computes
`qualifiesForBooking`, records the subcategory `nurture-success` or
`nurture-no-booking`, and either proceeds to the counselling step 3 or
submits directly.  The lead category itself is never modified here. -/
def onSubmitExtendedNurture (filler : FormFillerType) (leadCategory : String)
    (d : ExtendedNurtureData) : ExtendedNurtureResult :=
  if qualifiesForBooking filler d then
    { category := leadCategory, subcategory := "nurture-success", next := FlowStep.step3 }
  else
    { category := leadCategory, subcategory := "nurture-no-booking", next := FlowStep.submitted }

/-! ## The Zustand form store (`src/store/formStore.ts`) and the top-level
render guard of the v8.0 `FormContainer` -/

/-- The slice of the stored form data that the render guard and the
submission handlers read.  Absent fields are `none`, mirroring missing keys
of the partial record. -/
structure StoredFormData where
  lead_category : Option String := none
  selectedDate : Option String := none
  selectedSlot : Option String := none
  deriving DecidableEq, Repr

/-- JavaScript object spread `{ ...s, ...p }`: a field present in the patch
overrides the stored one. -/
def mergeFormData (s p : StoredFormData) : StoredFormData :=
  { lead_category := p.lead_category.orElse (fun _ => s.lead_category)
    selectedDate := p.selectedDate.orElse (fun _ => s.selectedDate)
    selectedSlot := p.selectedSlot.orElse (fun _ => s.selectedSlot) }

/-- The per-session flow state held by `useFormStore`. -/
structure FormState where
  currentStep : Nat
  formData : StoredFormData
  isSubmitting : Bool
  isSubmitted : Bool
  deriving DecidableEq, Repr

/-- `setStep` of `useFormStore`: unconditionally replaces `currentStep`
(there is no guard on `isSubmitted`). -/
def setStep (step : Nat) (s : FormState) : FormState :=
  { s with currentStep := step }

/-- `updateFormData` of `useFormStore`: merges the patch into the stored
data, with no guard on `isSubmitted`. -/
def updateFormData (p : StoredFormData) (s : FormState) : FormState :=
  { s with formData := mergeFormData s.formData p }

/-- `setSubmitting` of `useFormStore`. -/
def setSubmitting (b : Bool) (s : FormState) : FormState :=
  { s with isSubmitting := b }

/-- `setSubmitted` of `useFormStore`. -/
def setSubmitted (b : Bool) (s : FormState) : FormState :=
  { s with isSubmitted := b }

/-- What the v8.0 `FormContainer` renders. -/
inductive ViewV8 where
  | submittedView
  | processingView
  | animationView
  | page1Form
  | page2AForm
  | page2BForm
  | emptyView
  deriving DecidableEq, Repr

/-- The render logic of the v8.0 `FormContainer`: the submitted thank-you
view is returned before anything else; then the processing screen while
submitting without the evaluation animation; then the animation; then the
step forms, with page 2A for qualified categories and 2B otherwise. -/
def renderViewV8 (s : FormState) (showAnim : Bool) : ViewV8 :=
  if s.isSubmitted then .submittedView
  else if s.isSubmitting && !showAnim then .processingView
  else if showAnim then .animationView
  else if s.currentStep == 1 then .page1Form
  else if s.currentStep == 2 && isQualifiedCategory ((s.formData.lead_category).getD "") then
    .page2AForm
  else if s.currentStep == 2 then .page2BForm
  else .emptyView

/-- Which rendered views expose a submit handler (the only way an outbound
submission can be triggered). -/
def viewHasSubmitHandler : ViewV8 → Bool
  | .page1Form => true
  | .page2AForm => true
  | .page2BForm => true
  | _ => false

/-! ## Webhook payload assembly inside `submitFormData` (`src/lib/form.ts`) -/

/-- The partial form data handed to `submitFormData`. -/
structure SubmitData where
  formFillerType : Option String := none
  studentFirstName : Option String := none
  studentLastName : Option String := none
  currentGrade : Option String := none
  curriculumType : Option String := none
  gradeFormat : Option String := none
  gpaValue : Option String := none
  percentageValue : Option String := none
  schoolName : Option String := none
  scholarshipRequirement : Option String := none
  targetGeographies : Option (List String) := none
  phoneNumber : Option String := none
  parentName : Option String := none
  email : Option String := none
  selectedDate : Option String := none
  selectedSlot : Option String := none
  lead_category : Option String := none
  sessionId : Option String := none
  deriving DecidableEq, Repr

/-- The `data.lead_category` value as it reaches `sanitizeLeadCategory`
(an absent field arrives as `undefined`). -/
def categoryInput (d : SubmitData) : JSValue :=
  match d.lead_category with
  | none => JSValue.vUndefined
  | some s => JSValue.vStr s

/-- The webhook payload built by `submitFormData`.  `created_at` is the
wall-clock timestamp of the call (`new Date().toISOString()`), modelled by
the raw millisecond clock value. -/
structure WebhookPayload where
  formFillerType : Option String
  studentFirstName : Option String
  studentLastName : Option String
  currentGrade : Option String
  curriculumType : Option String
  gradeFormat : Option String
  gpaValue : Option String
  percentageValue : Option String
  schoolName : Option String
  scholarshipRequirement : Option String
  targetGeographies : List String
  phoneNumber : Option String
  parentName : Option String
  email : Option String
  counsellingDate : Option String
  counsellingTime : Option String
  counsellingSlotPicked : Bool
  counselor_assigned : Option String
  lead_category : Option String
  session_id : String
  environment : String
  total_time_spent : Nat
  created_at : Nat
  step_completed : Nat
  triggeredEvents : Option (List String)
  form_version : String
  is_qualified_lead : Bool
  page_completed : Nat
  funnel_stage : String
  deriving DecidableEq, Repr

/-- The payload assembly of `submitFormData` (`src/lib/form.ts` lines
76-135) as a pure function of the submitted data, the step, the stored
start time, the wall-clock reading `now` at the moment of the call, the
session id generated when none is present, the environment name and the
triggered-events list. -/
def buildWebhookPayload (d : SubmitData) (step : Nat) (startTime now : Nat)
    (genId envName : String) (events : List String) : WebhookPayload :=
  let sanitized := sanitizeLeadCategory (categoryInput d)
  let isQualified := isQualifiedCategory (sanitized.getD "")
  let slotPicked := strTruthy d.selectedDate && strTruthy d.selectedSlot
  let counselor : Option String :=
    if isQualified then
      if sanitized == some "bch" then some "Viswanathan" else some "Karthik Lakshman"
    else none
  { formFillerType := d.formFillerType
    studentFirstName := d.studentFirstName
    studentLastName := d.studentLastName
    currentGrade := d.currentGrade
    curriculumType := d.curriculumType
    gradeFormat := d.gradeFormat
    gpaValue := orNull d.gpaValue
    percentageValue := orNull d.percentageValue
    schoolName := d.schoolName
    scholarshipRequirement := d.scholarshipRequirement
    targetGeographies := d.targetGeographies.getD []
    phoneNumber := d.phoneNumber
    parentName := orNull d.parentName
    email := orNull d.email
    counsellingDate := if isQualified then orNull d.selectedDate else none
    counsellingTime := if isQualified then orNull d.selectedSlot else none
    counsellingSlotPicked := if isQualified then slotPicked else false
    counselor_assigned := counselor
    lead_category := sanitized
    session_id := if strTruthy d.sessionId then d.sessionId.getD "" else genId
    environment := envName
    total_time_spent := (now - startTime) / 1000
    created_at := now
    step_completed := step
    triggeredEvents := if events.length > 0 then some events else none
    form_version := "v8.0"
    is_qualified_lead := isQualified
    page_completed := step
    funnel_stage :=
      if step == 1 then "initial_capture"
      else if isQualified then "counseling_booked"
      else "contact_submitted" }

/-- Whether `submitFormData` emits the diagnostic log for an invalid
category: the original value is truthy but sanitization found no match. -/
def submitLogsInvalidCategory (d : SubmitData) : Bool :=
  strTruthy d.lead_category && (sanitizeLeadCategory (categoryInput d)).isNone

/-! ## Concrete profiles used by the theorems -/

/-- A student-filled grade-7-or-below profile. -/
def studentGrade7Profile : InitialLeadData :=
  { formFillerType := .student, currentGrade := .g7below,
    scholarshipRequirement := .partialScholarship, curriculumType := "CBSE",
    gpaValue := some "8.5", percentageValue := none, targetGeographies := ["US"] }

/-- A student-filled grade-11 profile. -/
def studentGrade11Profile : InitialLeadData :=
  { formFillerType := .student, currentGrade := .g11,
    scholarshipRequirement := .partialScholarship, curriculumType := "IB",
    gpaValue := some "9.0", percentageValue := none, targetGeographies := ["US"] }

/-- A parent-filled grade-8 profile with grade `7_below`. -/
def grade7ParentProfile : InitialLeadData :=
  { formFillerType := .parent, currentGrade := .g7below,
    scholarshipRequirement := .scholarshipOptional, curriculumType := "ICSE",
    gpaValue := some "7.5", percentageValue := none, targetGeographies := ["UK"] }

/-- A parent-filled grade-11 profile that meets the BCH conditions but
carries the GPA value in the shape `"10.0"`. -/
def spamShapeProfile : InitialLeadData :=
  { formFillerType := .parent, currentGrade := .g11,
    scholarshipRequirement := .scholarshipOptional, curriculumType := "IB",
    gpaValue := some "10.0", percentageValue := none, targetGeographies := ["US"] }

/-- The same profile with the GPA written exactly as `"10"`. -/
def spamExactProfile : InitialLeadData :=
  { formFillerType := .parent, currentGrade := .g11,
    scholarshipRequirement := .scholarshipOptional, curriculumType := "IB",
    gpaValue := some "10", percentageValue := none, targetGeographies := ["US"] }

/-- Extended-nurture answers of a parent who would accept loans for partial
funding but has no specific financial plans. -/
def acceptLoansAnswers : ExtendedNurtureData :=
  { parentalSupport := "would_join", partialFundingApproach := "accept_loans",
    financialPlanning := "no_specific_plans", gradeSpecificQuestion := "profile_focus" }

/-- A flow state that has already been submitted. -/
def submittedStateExample : FormState :=
  { currentStep := 1, formData := {}, isSubmitting := false, isSubmitted := true }

/-- Submitted data of a lead categorized `bch` by the flow handlers. -/
def bchSubmitExample : SubmitData :=
  { formFillerType := some "parent", currentGrade := some "10",
    lead_category := some "bch", sessionId := some "sess-bch",
    selectedDate := some "2025-07-01", selectedSlot := some "10:00 AM" }

/-- Submitted data used for the payload determinism analysis. -/
def lumSubmitExample : SubmitData :=
  { formFillerType := some "parent", currentGrade := some "12",
    lead_category := some "lum-l1", sessionId := some "sess-lum" }

/-- Submitted data whose category value matches no valid category. -/
def invalidCategorySubmitExample : SubmitData :=
  { formFillerType := some "parent", lead_category := some "premium",
    sessionId := some "sess-inv" }

/-- Submitted data whose category value is `NURTURE` with surrounding
whitespace. -/
def paddedNurtureSubmitExample : SubmitData :=
  { formFillerType := some "parent", lead_category := some " NURTURE ",
    sessionId := some "sess-pad" }

/-! ## Helper lemmas -/

/-- Away from grade `7_below`, the categorizer never returns `drop`. -/
theorem determineLeadCategory_ne_drop (d : InitialLeadData)
    (h : d.currentGrade ≠ Grade.g7below) : determineLeadCategory d ≠ "drop" := by
  unfold determineLeadCategory
  repeat' split
  all_goals simp_all

/-- Away from grade `7_below`, the page-1 handler assigns exactly the
category computed by the rule evaluator. -/
theorem assignedCategoryV8_eq (d : InitialLeadData)
    (hg : d.currentGrade ≠ Grade.g7below) :
    assignedCategoryV8 d = determineLeadCategory d := by
  unfold assignedCategoryV8 onSubmitPage1
  rw [if_neg (by simp [hg])]
  by_cases hf : d.formFillerType = FormFillerType.student
  · simp [hf]
  · simp [hf]

/-! ## Claim theorems -/

/-- Claim C1, counterexample: the claim says every student-filled profile is
assigned `nurture` regardless of every other field; but in the v8.0 flow a
student-filled profile with grade `7_below` is assigned `drop` (the grade
check of `onSubmitPage1` runs before the student check). -/
theorem student_grade7_assigned_drop_cex :
    studentGrade7Profile.formFillerType = FormFillerType.student ∧
    onSubmitPage1 studentGrade7Profile = Page1Outcome.submittedAtStep1 "drop" ∧
    ("drop" : String) ≠ "nurture" := by decide

/-- Claim C1 (amended): in the v8.0 flow, every student-filled profile whose
grade is not `7_below` is assigned `nurture` and submitted immediately after
page 1 (the academic step), so it never reaches a later step; in the 3-step
flow, the step-2 handler routes by category alone (`NURTURE` to step 2.5,
anything else to step 3) and never submits directly after the academic
step. -/
theorem student_nurture_immediate_submit (d : InitialLeadData)
    (hs : d.formFillerType = FormFillerType.student)
    (hg : d.currentGrade ≠ Grade.g7below) :
    onSubmitPage1 d = Page1Outcome.submittedAtStep1 "nurture" ∧
    ∀ c : String, threeStepStep2Next c = FlowStep.step2_5 ∨
      threeStepStep2Next c = FlowStep.step3 := by
  constructor
  · unfold onSubmitPage1 determineLeadCategory
    simp [hs, hg]
  · intro c
    unfold threeStepStep2Next
    split
    · exact Or.inl rfl
    · exact Or.inr rfl

/-- Claim C1, witness: the amended statement evaluated on a concrete
student-filled grade-11 profile. -/
theorem student_nurture_immediate_submit_witness :
    onSubmitPage1 studentGrade11Profile = Page1Outcome.submittedAtStep1 "nurture" :=
  (student_nurture_immediate_submit studentGrade11Profile (by decide) (by decide)).1

/-- Claim C2: in the v8.0 flow the assigned lead category is `drop` exactly
when the grade is `7_below`, and a `7_below` submission happens immediately
at step 1 with category `drop`. -/
theorem grade7_drop_iff (d : InitialLeadData) :
    (assignedCategoryV8 d = "drop" ↔ d.currentGrade = Grade.g7below) ∧
    (d.currentGrade = Grade.g7below →
      onSubmitPage1 d = Page1Outcome.submittedAtStep1 "drop") := by
  by_cases hg : d.currentGrade = Grade.g7below
  · refine ⟨⟨fun _ => hg, fun _ => ?_⟩, fun _ => ?_⟩
    · simp [assignedCategoryV8, onSubmitPage1, hg]
    · simp [onSubmitPage1, hg]
  · have hnd := determineLeadCategory_ne_drop d hg
    refine ⟨⟨fun hc => absurd ?_ hnd, fun hgg => absurd hgg hg⟩,
      fun hgg => absurd hgg hg⟩
    rw [assignedCategoryV8_eq d hg] at hc
    exact hc

/-- Claim C2, witness: the iff evaluated on a concrete parent-filled
`7_below` profile. -/
theorem grade7_drop_iff_witness :
    onSubmitPage1 grade7ParentProfile = Page1Outcome.submittedAtStep1 "drop" :=
  (grade7_drop_iff grade7ParentProfile).2 (by decide)

/-- Claim C3, counterexample: the spam check compares the raw strings, so
the value shape `"10.0"` is not detected; a profile meeting the BCH
conditions with `gpaValue = "10.0"` is categorized `bch`, not `nurture`. -/
theorem spam_shape_not_detected_cex :
    spamShapeProfile.gpaValue = some "10.0" ∧
    isSpamLead spamShapeProfile = false ∧
    determineLeadCategory spamShapeProfile = "bch" ∧
    ("bch" : String) ≠ "nurture" := by decide

/-- Claim C3 (amended): every profile whose `gpaValue` is exactly the string
`"10"` or whose `percentageValue` is exactly `"100"` is categorized
`nurture`, even when the BCH or Luminaire conditions hold; other textual
shapes of the same number are not treated as spam. -/
theorem spam_exact_strings_nurture (d : InitialLeadData)
    (h : isSpamLead d = true) : determineLeadCategory d = "nurture" := by
  unfold determineLeadCategory
  split <;> simp [h]

/-- Claim C3, witness: the amended statement evaluated on a concrete profile
with `gpaValue = "10"` that otherwise meets the BCH conditions. -/
theorem spam_exact_strings_nurture_witness :
    determineLeadCategory spamExactProfile = "nurture" :=
  spam_exact_strings_nurture spamExactProfile (by decide)

/-- Claim C4: the extended-nurture handler of `FormContainer.tsx` never
changes the lead category; on a parent-filled lead with
`partialFundingApproach = accept_loans` (and no specific financial plans) it
records subcategory `nurture-no-booking` and submits directly, instead of
re-categorizing to `lum-l2` as the repository documentation prescribes. -/
theorem extended_nurture_keeps_category :
    onSubmitExtendedNurture FormFillerType.parent "nurture" acceptLoansAnswers =
      { category := "nurture", subcategory := "nurture-no-booking",
        next := FlowStep.submitted } ∧
    ∀ (f : FormFillerType) (c : String) (dd : ExtendedNurtureData),
      (onSubmitExtendedNurture f c dd).category = c := by
  refine ⟨by decide, fun f c dd => ?_⟩
  unfold onSubmitExtendedNurture
  split <;> rfl

/-- Claim C5, counterexample: the store is not immutable after submission;
`setStep` changes `currentStep` even when `isSubmitted` is true. -/
theorem submitted_state_mutates_cex :
    submittedStateExample.isSubmitted = true ∧
    setStep 2 submittedStateExample ≠ submittedStateExample := by decide

/-- Claim C5 (amended): the store operations themselves are unguarded, but
once `isSubmitted` is true the component renders only the thank-you view,
which exposes no submit handler, so no further submission can be triggered
through the UI; and no step change or data update ever clears the submitted
flag. -/
theorem submitted_renders_thankyou (s : FormState) (anim : Bool)
    (h : s.isSubmitted = true) :
    renderViewV8 s anim = ViewV8.submittedView ∧
    viewHasSubmitHandler (renderViewV8 s anim) = false ∧
    (∀ n, (setStep n s).isSubmitted = true) ∧
    (∀ p, (updateFormData p s).isSubmitted = true) := by
  simp [renderViewV8, viewHasSubmitHandler, setStep, updateFormData, h]

/-- Claim C5, witness: the amended statement evaluated on a concrete
submitted state. -/
theorem submitted_renders_thankyou_witness :
    renderViewV8 submittedStateExample false = ViewV8.submittedView :=
  (submitted_renders_thankyou submittedStateExample false (by decide)).1

/-- Claim C6: the declared category enum is not the lowercase wire set; it
contains `BCH`, `NURTURE` and `DROP` in upper case, and sanitization
canonicalizes lowercase inputs to those members, producing values that the
database migration constraint `chk_lead_category` rejects. -/
theorem lead_categories_casing_mismatch :
    ("bch" : String) ∉ LEAD_CATEGORIES ∧
    ("BCH" : String) ∈ LEAD_CATEGORIES ∧
    ("nurture" : String) ∉ LEAD_CATEGORIES ∧
    ("drop" : String) ∉ LEAD_CATEGORIES ∧
    sanitizeLeadCategory (JSValue.vStr "drop") = some "DROP" ∧
    ("DROP" : String) ∉ dbAllowedLeadCategories ∧
    ("drop" : String) ∈ dbAllowedLeadCategories := by decide

/-- Claim C7, counterexample: an input matching no valid category is
sanitized to `null`, not to `nurture`. -/
theorem unknown_category_not_nurture_cex :
    sanitizeLeadCategory (JSValue.vStr "premium") = none ∧
    sanitizeLeadCategory (JSValue.vStr "premium") ≠ some "nurture" := by decide

/-- Claim C7 (amended): sanitization matches the input case-insensitively
and trimmed against the valid category set; an input matching no valid
category is replaced by `null` in the outgoing payload — never propagated
as-is and never thrown — and when the original value was truthy the
diagnostic log is emitted. -/
theorem sanitize_match_or_null (d : SubmitData) (step start now : Nat)
    (gid env : String) (evs : List String) :
    (∀ c, (buildWebhookPayload d step start now gid env evs).lead_category = some c →
      c ∈ LEAD_CATEGORIES ∧
      jsToLower c = jsToLower (jsTrim (jsToString (categoryInput d)))) ∧
    (sanitizeLeadCategory (categoryInput d) = none →
      (buildWebhookPayload d step start now gid env evs).lead_category = none ∧
      (strTruthy d.lead_category = true → submitLogsInvalidCategory d = true)) := by
  have hproj : (buildWebhookPayload d step start now gid env evs).lead_category
      = sanitizeLeadCategory (categoryInput d) := rfl
  constructor
  · intro c hc
    rw [hproj] at hc
    unfold sanitizeLeadCategory at hc
    split at hc
    · exact absurd hc (by simp)
    · have hp := List.find?_some hc
      exact ⟨List.mem_of_find?_eq_some hc, eq_of_beq hp⟩
  · intro hn
    refine ⟨by rw [hproj, hn], fun ht => ?_⟩
    unfold submitLogsInvalidCategory
    rw [hn, ht]
    rfl

/-- Claim C7, witness: the amended statement evaluated on a concrete padded
mixed-case input and on a concrete invalid input. -/
theorem sanitize_match_or_null_witness :
    (("NURTURE" : String) ∈ LEAD_CATEGORIES ∧
      jsToLower "NURTURE" =
        jsToLower (jsTrim (jsToString (categoryInput paddedNurtureSubmitExample)))) ∧
    ((buildWebhookPayload invalidCategorySubmitExample 1 0 0 "g" "staging" []).lead_category
        = none ∧
      (strTruthy invalidCategorySubmitExample.lead_category = true →
        submitLogsInvalidCategory invalidCategorySubmitExample = true)) :=
  ⟨(sanitize_match_or_null paddedNurtureSubmitExample 1 0 0 "g" "staging" []).1
      "NURTURE" (by decide),
    (sanitize_match_or_null invalidCategorySubmitExample 1 0 0 "g" "staging" []).2
      (by decide)⟩

/-- Claim C8, counterexample: two payload-builder calls with identical form
data, step, start time and elapsed whole seconds, made at different
wall-clock instants, are not identical records (`created_at` is the call
instant). -/
theorem payload_differs_same_elapsed_cex :
    (100 - 0) / 1000 = (900 - 0) / 1000 ∧
    buildWebhookPayload lumSubmitExample 2 0 100 "gen" "staging" [] ≠
      buildWebhookPayload lumSubmitExample 2 0 900 "gen" "staging" [] := by decide

/-- Claim C8 (amended): the payload builder is a pure function of its full
inputs, and every field except `created_at` depends only on the form data,
the step, the elapsed whole seconds, the generated session id, the
environment and the event list: with those equal, two calls agree on all
fields once `created_at` is set aside. -/
theorem payload_deterministic_except_timestamp (d : SubmitData)
    (step start now₁ now₂ : Nat) (gid env : String) (evs : List String)
    (h : (now₁ - start) / 1000 = (now₂ - start) / 1000) :
    { buildWebhookPayload d step start now₁ gid env evs with created_at := 0 } =
      { buildWebhookPayload d step start now₂ gid env evs with created_at := 0 } := by
  simp [buildWebhookPayload, h]

/-- Claim C8, witness: the amended statement evaluated at concrete inputs
whose clock readings differ inside the same elapsed second. -/
theorem payload_deterministic_except_timestamp_witness :
    { buildWebhookPayload lumSubmitExample 2 0 100 "gen" "staging" [] with
        created_at := 0 } =
      { buildWebhookPayload lumSubmitExample 2 0 900 "gen" "staging" [] with
        created_at := 0 } :=
  payload_deterministic_except_timestamp lumSubmitExample 2 0 100 900 "gen" "staging" []
    (by decide)

/-- Claim C9: evaluating the payload assembly on a lead the flow categorized
`bch` shows the defect: sanitization canonicalizes to the upper-case member
`BCH`, the lowercase qualification test then fails, so the outbound record
carries `is_qualified_lead = false`, no counselor and funnel stage
`contact_submitted` — although the step-2 record of a qualified `bch` lead
should carry `true`, `Viswanathan` and `counseling_booked`, as the helper
`getCounselorAssignment` and the lowercase qualification test themselves
prescribe; the same inputs with `lum-l1` behave as the claim states. -/
theorem bch_payload_disqualified :
    (buildWebhookPayload bchSubmitExample 2 0 5000 "gen" "staging" []).lead_category
      = some "BCH" ∧
    (buildWebhookPayload bchSubmitExample 2 0 5000 "gen" "staging" []).is_qualified_lead
      = false ∧
    (buildWebhookPayload bchSubmitExample 2 0 5000 "gen" "staging" []).counselor_assigned
      = none ∧
    (buildWebhookPayload bchSubmitExample 2 0 5000 "gen" "staging" []).funnel_stage
      = "contact_submitted" ∧
    getCounselorAssignment "bch" = some "Viswanathan" ∧
    isQualifiedCategory "bch" = true ∧
    (buildWebhookPayload { bchSubmitExample with lead_category := some "lum-l1" }
        2 0 5000 "gen" "staging" []).is_qualified_lead = true ∧
    (buildWebhookPayload { bchSubmitExample with lead_category := some "lum-l1" }
        2 0 5000 "gen" "staging" []).counselor_assigned = some "Karthik Lakshman" ∧
    (buildWebhookPayload { bchSubmitExample with lead_category := some "lum-l1" }
        2 0 5000 "gen" "staging" []).funnel_stage = "counseling_booked" := by decide

/-- Claim C10: `sanitizeLeadCategory` is total over the modelled value
fragment and returns `null` or a canonical member of `LEAD_CATEGORIES`; it
is idempotent on its own output: re-sanitizing a returned member returns
that member unchanged. -/
theorem sanitizeLeadCategory_total_idempotent (v : JSValue) (c : String)
    (h : sanitizeLeadCategory v = some c) :
    c ∈ LEAD_CATEGORIES ∧ sanitizeLeadCategory (JSValue.vStr c) = some c := by
  have hmem : c ∈ LEAD_CATEGORIES := by
    unfold sanitizeLeadCategory at h
    split at h
    · exact absurd h (by simp)
    · exact List.mem_of_find?_eq_some h
  refine ⟨hmem, ?_⟩
  simp only [LEAD_CATEGORIES, List.mem_cons, List.not_mem_nil, or_false] at hmem
  rcases hmem with rfl | rfl | rfl | rfl | rfl | rfl | rfl <;> decide

/-- Claim C10, witness: the statement evaluated on a concrete padded
lower-case input sanitizing to the canonical member `BCH`. -/
theorem sanitizeLeadCategory_total_idempotent_witness :
    ("BCH" : String) ∈ LEAD_CATEGORIES ∧
    sanitizeLeadCategory (JSValue.vStr "BCH") = some "BCH" :=
  sanitizeLeadCategory_total_idempotent (JSValue.vStr " bch ") "BCH" (by decide)

end AdmissionsBch
